import Mathlib

/-!
Shallow embedding of the service worker in src/static/sw.js: the versioned
cache stores, the request classifier implicit in the fetch listener, the
three strategy executors, the install and activate lifecycle handlers and
the control-channel message handler. Cache storage is modelled as an explicit
association list of (store name, url, response) entries; the network is an
oracle from url strings to either an error or a response; each handler
returns its result together with the list of cache writes it performs.
-/

namespace SW

/-- An HTTP response snapshot: status, content type header and body. -/
structure Response where
  status : Nat
  contentType : String
  body : String
  deriving Repr, DecidableEq

/-- `Response.ok` is true when the status is in the successful range 200-299,
as in the platform fetch API. -/
def Response.ok (r : Response) : Bool :=
  200 ≤ r.status && r.status ≤ 299

/-- The parsed components of a request url, as produced by `new URL(request.url)`
in the listener: the full url string (`href`), the scheme with trailing colon
(`protocol`) and the path (`pathname`). -/
structure Url where
  href : String
  protocol : String
  pathname : String
  deriving Repr, DecidableEq

/-- A request as the worker sees it. The fetch listener reads only `method`,
`url` and `mode`; `headers` stands for the remaining request attributes it
never inspects. -/
structure Request where
  method : String
  url : Url
  mode : String
  headers : List (String × String)
  deriving Repr, DecidableEq

/-- `const CACHE_NAME = 'terminal-portfolio-v1'` (sw.js line 4). -/
def CACHE_NAME : String := "terminal-portfolio-v1"

/-- `const STATIC_CACHE_NAME = 'terminal-static-v1'` (sw.js line 5). -/
def STATIC_CACHE_NAME : String := "terminal-static-v1"

/-- `const RUNTIME_CACHE_NAME = 'terminal-runtime-v1'` (sw.js line 6). -/
def RUNTIME_CACHE_NAME : String := "terminal-runtime-v1"

/-- JS `s.startsWith(p)`, modelled on the character lists of the strings so
that concrete instances evaluate by kernel reduction. -/
def strStarts (s p : String) : Bool :=
  List.isPrefixOf p.data s.data

/-- JS `s.endsWith(p)` / an end-anchored regex suffix test, modelled on the
character lists of the strings. -/
def strEnds (s p : String) : Bool :=
  List.isSuffixOf p.data s.data

/-- Substring occurrence on character lists: `p` occurs somewhere in `l`. -/
def subOccurs (p : List Char) : List Char → Bool
  | [] => List.isEmpty p
  | c :: t => List.isPrefixOf p (c :: t) || subOccurs p t

/-- JS `s.includes(p)`: `p` occurs as a substring of `s`. -/
def strHasSub (s p : String) : Bool :=
  subOccurs p.data s.data

/-- The fixed precache list `STATIC_ASSETS` (sw.js lines 9-23). -/
def STATIC_ASSETS : List String :=
  ["/", "/about/", "/projects/", "/resume/", "/contact/", "/tutorials/",
   "/books/", "/quotes/", "/css/main.css", "/js/bundle.js", "/manifest.json",
   "/icons/icon-192x192.png", "/icons/icon-512x512.png"]

/-- The `RUNTIME_CACHE_PATTERNS` regex list (sw.js lines 26-31), translated
test by test: the two font-CDN anchored patterns test a literal url start,
and the two extension patterns test a literal url end. -/
def runtimePatternsTest (u : String) : Bool :=
  strStarts u "https://fonts.googleapis.com/" ||
  strStarts u "https://fonts.gstatic.com/" ||
  (strEnds u ".png" || strEnds u ".jpg" || strEnds u ".jpeg" ||
   strEnds u ".svg" || strEnds u ".gif" || strEnds u ".webp") ||
  (strEnds u ".js" || strEnds u ".css")

/-- `isStaticAsset` (sw.js lines 234-237): the url pathname exactly equals
one entry of the precache list. -/
def isStaticAsset (request : Request) : Bool :=
  STATIC_ASSETS.any (fun asset => request.url.pathname == asset)

/-- `shouldCacheRuntime` (sw.js lines 240-242): some runtime pattern tests
true on the full request url. -/
def shouldCacheRuntime (request : Request) : Bool :=
  runtimePatternsTest request.url.href

/-- The category the fetch listener assigns to a request by its sequence of
early returns (sw.js lines 86-114). `NetworkOnly` is the final default
branch, which still responds (with a plain network fetch, no caching). -/
inductive Category where
  | Bypass
  | Navigation
  | StaticAsset
  | RuntimeAsset
  | NetworkOnly
  deriving Repr, DecidableEq

/-- The classification implicit in the fetch listener (sw.js lines 81-115):
non-GET methods and urls whose protocol does not start with "http" are
skipped; `mode === 'navigate'` selects navigation handling; then the static
list and the runtime patterns are consulted; everything else falls to the
default network-only branch. -/
def classify (request : Request) : Category :=
  if request.method != "GET" then .Bypass
  else if !strStarts request.url.protocol "http" then .Bypass
  else if request.mode == "navigate" then .Navigation
  else if isStaticAsset request then .StaticAsset
  else if shouldCacheRuntime request then .RuntimeAsset
  else .NetworkOnly

/-- Cache storage: the ordered list of entries across all named stores.
Each entry is (store name, url key, stored response). -/
abbrev CacheState := List (String × String × Response)

/-- A single cache write performed by a handler: (store name, url, response). -/
abbrev Write := String × String × Response

/-- `caches.match(url)` — look the url up across every store, returning the
first entry whose key equals the url, or none. -/
def cachesMatch (st : CacheState) (u : String) : Option Response :=
  (st.find? (fun e => e.2.1 == u)).map (fun e => e.2.2)

/-- The network as an oracle: fetching a url either fails with an error
message or yields a response. -/
abbrev Network := String → Except String Response

instance {ε α : Type} [DecidableEq ε] [DecidableEq α] : DecidableEq (Except ε α)
  | .ok a, .ok b =>
      if h : a = b then .isTrue (by rw [h]) else .isFalse (by simp [h])
  | .ok _, .error _ => .isFalse (by simp)
  | .error _, .ok _ => .isFalse (by simp)
  | .error e, .error f =>
      if h : e = f then .isTrue (by rw [h]) else .isFalse (by simp [h])

/-- What a strategy executor produces: a result (the delivered response, or a
propagated error) together with the cache writes it performs, including
fire-and-forget background writes. -/
structure HandlerOut where
  result : Except String Response
  writes : List Write
  deriving Repr, DecidableEq

/-- `fetchAndCache` (sw.js lines 214-231): fetch the request from the
network; if the response is ok, put it into the RUNTIME cache store
(the helper always opens `RUNTIME_CACHE_NAME`); return the response.
A fetch failure is rethrown to the caller and nothing is written. -/
def fetchAndCache (net : Network) (request : Request) : HandlerOut :=
  match net request.url.href with
  | .ok r =>
      if r.ok then ⟨.ok r, [(RUNTIME_CACHE_NAME, request.url.href, r)]⟩
      else ⟨.ok r, []⟩
  | .error e => ⟨.error e, []⟩

/-- The offline placeholder HTML body (sw.js lines 147-176), the template
literal returned as a last resort by the navigation handler. -/
def offlineBody : String :=
  "<!DOCTYPE html>\n      <html>\n      <head>\n        <title>Offline - Utsav Balar</title>\n        <style>\n          body \x7b \n            font-family: monospace; \n            background: #0f0f0f; \n            color: #00ff41; \n            padding: 2rem; \n            text-align: center;\n          \x7d\n          .terminal \x7b \n            border: 1px solid #333; \n            padding: 1rem; \n            max-width: 600px; \n            margin: 2rem auto; \n          \x7d\n        </style>\n      </head>\n      <body>\n        <div class=\"terminal\">\n          <h1>Connection Lost</h1>\n          <p>$ curl -I utsavbalar.in</p>\n          <p>curl: (6) Could not resolve host</p>\n          <p><br>You\x27re currently offline. Please check your connection and try again.</p>\n          <p><a href=\"/\" style=\"color: #00ff41;\">‚Üê Return to Home</a></p>\n        </div>\n      </body>\n      </html>"

/-- The synthesized offline response (sw.js lines 146-181): status 200 with
Content-Type text/html and the fixed offline HTML body. A pure constant. -/
def offlineResponse : Response :=
  { status := 200, contentType := "text/html", body := offlineBody }

/-- `handleNavigationRequest` (sw.js lines 118-183), the NetworkFirst
executor: try the network; on an ok response write a copy into the runtime
store and return the live response (non-ok responses are returned unstored);
on a fetch failure fall back, in order, to the exact url in any store, then
to the "/" entry in any store, then to the synthesized offline response. -/
def handleNavigationRequest (net : Network) (st : CacheState) (request : Request) :
    HandlerOut :=
  match net request.url.href with
  | .ok r =>
      if r.ok then ⟨.ok r, [(RUNTIME_CACHE_NAME, request.url.href, r)]⟩
      else ⟨.ok r, []⟩
  | .error _ =>
      match cachesMatch st request.url.href with
      | some c => ⟨.ok c, []⟩
      | none =>
          match cachesMatch st "/" with
          | some c => ⟨.ok c, []⟩
          | none => ⟨.ok offlineResponse, []⟩

/-- `handleStaticAsset` (sw.js lines 186-197), the CacheFirst executor: look
the request up across all stores; on a hit return the cached response while
`fetchAndCache` runs fire-and-forget in the background (its writes still
happen, its result is dropped); on a miss delegate to `fetchAndCache`. -/
def handleStaticAsset (net : Network) (st : CacheState) (request : Request) :
    HandlerOut :=
  match cachesMatch st request.url.href with
  | some c => ⟨.ok c, (fetchAndCache net request).writes⟩
  | none => fetchAndCache net request

/-- `handleRuntimeAsset` (sw.js lines 200-211), the StaleWhileRevalidate
executor: start `fetchAndCache` unconditionally, look the request up across
all stores; on a hit return the cached response (the fetch keeps running in
the background); on a miss the fetch promise itself is the result. -/
def handleRuntimeAsset (net : Network) (st : CacheState) (request : Request) :
    HandlerOut :=
  let fp := fetchAndCache net request
  match cachesMatch st request.url.href with
  | some c => ⟨.ok c, fp.writes⟩
  | none => fp

/-- The default branch of the fetch listener (sw.js line 114):
`event.respondWith(fetch(request))` — network pass-through, no caching. -/
def networkOnly (net : Network) (request : Request) : HandlerOut :=
  match net request.url.href with
  | .ok r => ⟨.ok r, []⟩
  | .error e => ⟨.error e, []⟩

/-- What the fetch listener does with an event: either it returns without
calling respondWith (no response produced by the worker, no cache touched),
or it responds with a strategy execution. -/
inductive FetchAction where
  | skip
  | respond (out : HandlerOut)
  deriving Repr, DecidableEq

/-- The fetch listener (sw.js lines 81-115): dispatch on the classification. -/
def fetchListener (net : Network) (st : CacheState) (request : Request) :
    FetchAction :=
  match classify request with
  | .Bypass => .skip
  | .Navigation => .respond (handleNavigationRequest net st request)
  | .StaticAsset => .respond (handleStaticAsset net st request)
  | .RuntimeAsset => .respond (handleRuntimeAsset net st request)
  | .NetworkOnly => .respond (networkOnly net request)

/-- `cache.addAll(urls)`, the platform bulk write used at install: fetch
every url; if any fetch fails or yields a non-ok response the whole
operation rejects and nothing is stored (the batch is atomic); otherwise
all entries are stored in the given store. -/
def addAll (net : Network) (cacheName : String) :
    List String → Except String (List Write)
  | [] => .ok []
  | u :: rest =>
      match net u with
      | .error e => .error e
      | .ok r =>
          if r.ok then
            (addAll net cacheName rest).map (fun ws => (cacheName, u, r) :: ws)
          else .error "addAll: non-ok response"

/-- The outcome of the install handler: the settled state of the promise
passed to `event.waitUntil`, the cache writes performed, and whether
`self.skipWaiting()` was invoked. -/
structure InstallOut where
  result : Except String Unit
  writes : List Write
  skipWaitingCalled : Bool
  deriving Repr, DecidableEq

/-- The install listener (sw.js lines 34-51): open the static store, addAll
the precache list, then call skipWaiting. The trailing `.catch` handler logs
any error and yields a resolved promise, so the chain handed to waitUntil
always settles successfully; on failure nothing was stored and skipWaiting
was not reached. -/
def installListener (net : Network) : InstallOut :=
  match addAll net STATIC_CACHE_NAME STATIC_ASSETS with
  | .ok ws => ⟨.ok (), ws, true⟩
  | .error _ => ⟨.ok (), [], false⟩

/-- The activate listener's deletion set (sw.js lines 54-78): of the
existing store names, those that start with "terminal-" and are neither the
current static nor the current runtime store name are deleted. -/
def activateDeletes (cacheNames : List String) : List String :=
  cacheNames.filter (fun cacheName =>
    strStarts cacheName "terminal-" &&
    cacheName != STATIC_CACHE_NAME &&
    cacheName != RUNTIME_CACHE_NAME)

/-- The store names that remain after activation. -/
def activateRemaining (cacheNames : List String) : List String :=
  cacheNames.filter (fun cacheName => !(activateDeletes cacheNames).contains cacheName)

/-- What the message listener does with an inbound message. -/
inductive MessageAction where
  | none
  | skipWaiting
  | postToPort (portIdx : Nat) (version : String)
  deriving Repr, DecidableEq

/-- The message listener (sw.js lines 298-304): SKIP_WAITING triggers
skipWaiting; GET_VERSION posts `{ version: CACHE_NAME }` to the first reply
port; anything else is ignored. -/
def messageListener (msgType : Option String) : MessageAction :=
  match msgType with
  | Option.none => .none
  | some t =>
      if t == "SKIP_WAITING" then .skipWaiting
      else if t == "GET_VERSION" then .postToPort 0 CACHE_NAME
      else .none

/-! Concrete fixtures used by counterexamples and witnesses. -/

/-- A network where every fetch fails. -/
def netFail : Network := fun _ => Except.error "network unreachable"

/-- A fixed successful response. -/
def respOk : Response := ⟨200, "text/css", "asset-body"⟩

/-- A network where every fetch succeeds with `respOk`. -/
def netOk : Network := fun _ => Except.ok respOk

/-- A url not in the precache list and matching no runtime pattern. -/
def urlXyz : Url := ⟨"https://utsavbalar.in/xyz", "https:", "/xyz"⟩

/-- A navigation request for `urlXyz`. -/
def reqNavigate : Request := ⟨"GET", urlXyz, "navigate", []⟩

/-- A non-navigation request for the same method and url as `reqNavigate`. -/
def reqCors : Request := ⟨"GET", urlXyz, "cors", []⟩

/-- A request for the precached stylesheet path. -/
def reqCss : Request :=
  ⟨"GET", ⟨"https://utsavbalar.in/css/main.css", "https:", "/css/main.css"⟩,
   "no-cors", []⟩

/-- A GET request whose url scheme is `httpx`, which is neither http nor
https yet passes the listener's prefix test on the protocol. -/
def reqScheme : Request :=
  ⟨"GET", ⟨"httpx://example.com/a", "httpx:", "/a"⟩, "no-cors", []⟩

/-- The writes of `fetchAndCache` all carry ok responses. -/
theorem fetchAndCache_writes_ok (net : Network) (request : Request) :
    ((fetchAndCache net request).writes.all (fun w => w.2.2.ok)) = true := by
  unfold fetchAndCache
  cases h : net request.url.href with
  | ok r =>
      by_cases hr : r.ok = true
      · simp [hr]
      · simp [hr]
  | error e => simp

set_option maxRecDepth 10000

/-- C1 counterexample: with a network where every fetch fails (so fetching
the precache asset "/" fails), the promise the install listener hands to
waitUntil still resolves successfully — the install does NOT fail, because
the trailing catch handler swallows the error, contradicting the claim that
any single asset failure makes the entire install operation fail and
propagates so the new worker does not activate. -/
theorem C1_counterexample :
    netFail "/" = Except.error "network unreachable" ∧
    "/" ∈ STATIC_ASSETS ∧
    (installListener netFail).result = Except.ok () := by
  refine ⟨rfl, by decide, by decide⟩

/-- C1 amended: if the bulk precache write fails on any asset, no partial
precache is left (nothing at all is written) and skipWaiting is not invoked,
but the install listener catches the failure, so the install promise
resolves successfully and the install attempt itself does not fail. -/
theorem C1_install_failure_swallowed (net : Network) (e : String)
    (h : addAll net STATIC_CACHE_NAME STATIC_ASSETS = Except.error e) :
    installListener net = ⟨Except.ok (), [], false⟩ := by
  simp [installListener, h]

/-- C1 witness: the amended theorem applied to the all-failing network. -/
theorem C1_witness :
    installListener netFail = ⟨Except.ok (), [], false⟩ :=
  C1_install_failure_swallowed netFail "network unreachable" (by decide)

/-- C2 counterexample: on the claim's own example input, existing store
names ["static-v0", "runtime-v1"] with the current stores named by
`STATIC_CACHE_NAME` and `RUNTIME_CACHE_NAME`, the activate listener deletes
nothing — "static-v0" is not one of the two current names yet survives,
because the deletion filter only considers names starting with
"terminal-". -/
theorem C2_counterexample :
    "static-v0" ≠ STATIC_CACHE_NAME ∧
    "static-v0" ≠ RUNTIME_CACHE_NAME ∧
    activateDeletes ["static-v0", "runtime-v1"] = [] := by
  refine ⟨by decide, by decide, by decide⟩

/-- C2 amended: at activation, exactly those existing store names that start
with "terminal-" and are neither of the two current version-tagged names are
deleted; the two current stores are never deleted; on the prefixed version
of the example, given existing names ["terminal-static-v0",
"terminal-runtime-v1"], "terminal-static-v0" is deleted and
"terminal-runtime-v1" remains. -/
theorem C2_activate_deletes_prefixed_stale (cacheNames : List String) (n : String) :
    (n ∈ activateDeletes cacheNames ↔
      n ∈ cacheNames ∧ strStarts n "terminal-" = true ∧
      n ≠ STATIC_CACHE_NAME ∧ n ≠ RUNTIME_CACHE_NAME) ∧
    STATIC_CACHE_NAME ∉ activateDeletes cacheNames ∧
    RUNTIME_CACHE_NAME ∉ activateDeletes cacheNames ∧
    activateDeletes ["terminal-static-v0", "terminal-runtime-v1"]
      = ["terminal-static-v0"] ∧
    "terminal-runtime-v1" ∈
      activateRemaining ["terminal-static-v0", "terminal-runtime-v1"] := by
  refine ⟨?_, ?_, ?_, by decide, by decide⟩
  · simp [activateDeletes, List.mem_filter, Bool.and_eq_true, bne_iff_ne, ne_eq]
    tauto
  · simp [activateDeletes, List.mem_filter]
  · simp [activateDeletes, List.mem_filter]

/-- C3 counterexample: a request for the precached stylesheet (a
StaticAsset) with an empty cache and a succeeding network: the CacheFirst
executor stores the fetched response, but the single write goes to the
RUNTIME store, not the static store — `fetchAndCache` always opens
`RUNTIME_CACHE_NAME` — contradicting the claim that the response is stored
in the static store. -/
theorem C3_counterexample :
    classify reqCss = Category.StaticAsset ∧
    cachesMatch [] reqCss.url.href = none ∧
    (handleStaticAsset netOk [] reqCss).writes
      = [(RUNTIME_CACHE_NAME, reqCss.url.href, respOk)] ∧
    RUNTIME_CACHE_NAME ≠ STATIC_CACHE_NAME := by
  refine ⟨by decide, by decide, by decide, by decide⟩

/-- C3 amended: for a StaticAsset request not found in cache, the CacheFirst
executor fetches from the network; on an ok response it stores that response
in the RUNTIME store (not the static store) and returns it; a non-ok
response is returned without being stored; on network failure it propagates
the network error and writes nothing (no further fallback). -/
theorem C3_static_miss_runtime_store (net : Network) (st : CacheState)
    (request : Request) (hmiss : cachesMatch st request.url.href = none) :
    (∀ r, net request.url.href = Except.ok r →
        (handleStaticAsset net st request).result = Except.ok r ∧
        (r.ok = true →
          (handleStaticAsset net st request).writes
            = [(RUNTIME_CACHE_NAME, request.url.href, r)]) ∧
        (r.ok = false → (handleStaticAsset net st request).writes = [])) ∧
    (∀ e, net request.url.href = Except.error e →
        handleStaticAsset net st request = ⟨Except.error e, []⟩) := by
  constructor
  · intro r hr
    by_cases hok : r.ok = true
    · simp [handleStaticAsset, hmiss, fetchAndCache, hr, hok]
    · have hok' : r.ok = false := by simpa using hok
      simp [handleStaticAsset, hmiss, fetchAndCache, hr, hok']
  · intro e he
    simp [handleStaticAsset, hmiss, fetchAndCache, he]

/-- C3 witness: the amended theorem applied to the stylesheet request, the
empty cache and the always-succeeding network. -/
theorem C3_witness :
    (handleStaticAsset netOk [] reqCss).result = Except.ok respOk ∧
    (handleStaticAsset netOk [] reqCss).writes
      = [(RUNTIME_CACHE_NAME, reqCss.url.href, respOk)] := by
  have h := (C3_static_miss_runtime_store netOk [] reqCss (by decide)).1
      respOk (by decide)
  exact ⟨h.1, h.2.1 (by decide)⟩

/-- C4 counterexample: the reply to GET_VERSION carries `CACHE_NAME`
("terminal-portfolio-v1"), which is not the static store's identifier
`STATIC_CACHE_NAME` ("terminal-static-v1"), contradicting the claim that
the handler responds with the current static-store version identifier. -/
theorem C4_counterexample :
    messageListener (some "GET_VERSION")
      ≠ MessageAction.postToPort 0 STATIC_CACHE_NAME ∧
    CACHE_NAME ≠ STATIC_CACHE_NAME := by
  refine ⟨by decide, by decide⟩

/-- C4 amended: on a GET_VERSION message the handler replies on the first
message port with the worker's general version constant `CACHE_NAME`
("terminal-portfolio-v1"), a constant distinct from the name of either
store actually used for caching. -/
theorem C4_get_version_reply :
    messageListener (some "GET_VERSION") = MessageAction.postToPort 0 CACHE_NAME ∧
    CACHE_NAME = "terminal-portfolio-v1" ∧
    CACHE_NAME ≠ STATIC_CACHE_NAME ∧ CACHE_NAME ≠ RUNTIME_CACHE_NAME := by
  refine ⟨by decide, by decide, by decide, by decide⟩

/-- C5: when the network fetch for a navigation request fails, the executor
evaluates the three-level fallback chain in strict order and stops at the
first hit — (a) the exact requested url in any store, (b) the "/" entry in
any store, (c) the synthesized offline document — the synthesized terminal
fallback is a fixed constant with status 200, Content-Type text/html and a
body containing offline-indicating text, and the failing path performs no
cache writes. -/
theorem C5_navigation_fallback_chain (net : Network) (st : CacheState)
    (request : Request) (e : String)
    (hfail : net request.url.href = Except.error e) :
    (handleNavigationRequest net st request).writes = [] ∧
    (∀ c, cachesMatch st request.url.href = some c →
        (handleNavigationRequest net st request).result = Except.ok c) ∧
    (cachesMatch st request.url.href = none →
      ∀ c, cachesMatch st "/" = some c →
        (handleNavigationRequest net st request).result = Except.ok c) ∧
    (cachesMatch st request.url.href = none → cachesMatch st "/" = none →
        (handleNavigationRequest net st request).result
          = Except.ok offlineResponse) ∧
    offlineResponse.status = 200 ∧
    offlineResponse.contentType = "text/html" ∧
    strHasSub offlineResponse.body "offline" = true := by
  refine ⟨?_, ?_, ?_, ?_, by decide, by decide, by decide⟩
  · cases h1 : cachesMatch st request.url.href with
    | some c => simp [handleNavigationRequest, hfail, h1]
    | none =>
        cases h2 : cachesMatch st "/" with
        | some c => simp [handleNavigationRequest, hfail, h1, h2]
        | none => simp [handleNavigationRequest, hfail, h1, h2]
  · intro c h1
    simp [handleNavigationRequest, hfail, h1]
  · intro h1 c h2
    simp [handleNavigationRequest, hfail, h1, h2]
  · intro h1 h2
    simp [handleNavigationRequest, hfail, h1, h2]

/-- C5 witness: the chain theorem applied to the navigation request, the
empty cache and the all-failing network; with both lookups missing the
result is the offline document. -/
theorem C5_witness :
    (handleNavigationRequest netFail [] reqNavigate).result
      = Except.ok offlineResponse ∧
    offlineResponse.status = 200 := by
  have h := C5_navigation_fallback_chain netFail [] reqNavigate
      "network unreachable" (by decide)
  exact ⟨h.2.2.2.1 (by decide) (by decide), h.2.2.2.2.1⟩

/-- C6: the code evaluated at the failing input. `reqScheme` is a GET
request whose url scheme is httpx — neither http nor https — so by the
claim (and by the listener's own comment, which says non-http(s) requests
are skipped) it should be bypassed; instead the listener classifies it into
the default network branch and calls respondWith, because its guard only
tests that the protocol starts with "http". -/
theorem C6_scheme_prefix_hole :
    reqScheme.method = "GET" ∧
    reqScheme.url.protocol ≠ "http:" ∧
    reqScheme.url.protocol ≠ "https:" ∧
    strStarts reqScheme.url.protocol "http" = true ∧
    classify reqScheme = Category.NetworkOnly ∧
    classify reqScheme ≠ Category.Bypass ∧
    fetchListener netFail [] reqScheme ≠ FetchAction.skip := by
  refine ⟨by decide, by decide, by decide, by decide, by decide, by decide,
    by decide⟩

/-- C7: across the three strategy executors, every cache write carries a
response whose status is ok — non-ok (redirect or error) responses are
returned to the caller but never persisted. -/
theorem C7_only_ok_responses_cached (net : Network) (st : CacheState)
    (request : Request) :
    ((handleNavigationRequest net st request).writes.all
        (fun w => w.2.2.ok)) = true ∧
    ((handleStaticAsset net st request).writes.all
        (fun w => w.2.2.ok)) = true ∧
    ((handleRuntimeAsset net st request).writes.all
        (fun w => w.2.2.ok)) = true := by
  refine ⟨?_, ?_, ?_⟩
  · unfold handleNavigationRequest
    cases h : net request.url.href with
    | ok r =>
        by_cases hr : r.ok = true
        · simp [hr]
        · simp [hr]
    | error e =>
        cases h1 : cachesMatch st request.url.href with
        | some c => simp
        | none =>
            cases h2 : cachesMatch st "/" with
            | some c => simp
            | none => simp
  · unfold handleStaticAsset
    cases h1 : cachesMatch st request.url.href with
    | some c => simpa using fetchAndCache_writes_ok net request
    | none => simpa using fetchAndCache_writes_ok net request
  · unfold handleRuntimeAsset
    cases h1 : cachesMatch st request.url.href with
    | some c => simpa using fetchAndCache_writes_ok net request
    | none => simpa using fetchAndCache_writes_ok net request

/-- C8 counterexample: two requests with identical method and url but
different modes receive different categories — `reqNavigate` is classified
Navigation while `reqCors` falls to the default network branch — so
classification is not a function of method and url alone. -/
theorem C8_counterexample :
    reqNavigate.method = reqCors.method ∧
    reqNavigate.url = reqCors.url ∧
    classify reqNavigate = Category.Navigation ∧
    classify reqCors = Category.NetworkOnly ∧
    classify reqNavigate ≠ classify reqCors := by
  refine ⟨by decide, by decide, by decide, by decide, by decide⟩

/-- C8 amended: classification is a deterministic, total, side-effect-free
pure function of the request's method, url and mode: any two requests
agreeing on those three fields are assigned the same category, regardless
of any other request attribute (headers) or prior state. -/
theorem C8_classify_pure (r1 r2 : Request)
    (hm : r1.method = r2.method) (hu : r1.url = r2.url)
    (hmode : r1.mode = r2.mode) :
    classify r1 = classify r2 := by
  cases r1 with
  | mk m1 u1 mo1 h1 =>
      cases r2 with
      | mk m2 u2 mo2 h2 =>
          simp only at hm hu hmode
          subst hm; subst hu; subst hmode
          rfl

/-- C8 witness: the amended theorem applied to two concrete requests that
differ only in their headers. -/
theorem C8_witness :
    classify reqNavigate = classify ⟨"GET", urlXyz, "navigate", [("x", "y")]⟩ :=
  C8_classify_pure reqNavigate ⟨"GET", urlXyz, "navigate", [("x", "y")]⟩
    rfl rfl rfl

/-- C9: for a RuntimeAsset request with no cached entry whose network fetch
fails, the StaleWhileRevalidate executor's result is exactly the propagated
fetch error — not a synthesized placeholder — and it performs no cache
writes, leaving the runtime store unchanged. -/
theorem C9_runtime_miss_propagates_error (net : Network) (st : CacheState)
    (request : Request) (e : String)
    (hmiss : cachesMatch st request.url.href = none)
    (hfail : net request.url.href = Except.error e) :
    handleRuntimeAsset net st request = ⟨Except.error e, []⟩ := by
  simp [handleRuntimeAsset, fetchAndCache, hmiss, hfail]

/-- C9 witness: the theorem applied to a concrete runtime request, the
empty cache and the all-failing network. -/
theorem C9_witness :
    handleRuntimeAsset netFail [] reqCors
      = ⟨Except.error "network unreachable", []⟩ :=
  C9_runtime_miss_propagates_error netFail [] reqCors "network unreachable"
    (by decide) (by decide)

/-- C10: both the CacheFirst and the StaleWhileRevalidate executor look the
request up with a match across every store: whatever store name the entry
for the requested url lives under — in particular the runtime store for a
StaticAsset request or the static store for a RuntimeAsset request — the
cached response is returned, for every network oracle. -/
theorem C10_match_across_all_stores (net : Network) (storeName : String)
    (r : Response) (request : Request) (rest : CacheState) :
    (handleStaticAsset net ((storeName, request.url.href, r) :: rest)
        request).result = Except.ok r ∧
    (handleRuntimeAsset net ((storeName, request.url.href, r) :: rest)
        request).result = Except.ok r := by
  have hm : cachesMatch ((storeName, request.url.href, r) :: rest)
      request.url.href = some r := by
    simp [cachesMatch, List.find?]
  exact ⟨by simp [handleStaticAsset, hm], by simp [handleRuntimeAsset, hm]⟩

end SW
